import Mathlib

/-!
Shallow embedding of the NextgenTraining user-management backend.

The embedded code is the NestJS `UsersService` (the version of
`users.service.ts` that uses bcrypt and a JWT service) together with the
`User` entity of `src/users/entities/user.entity.ts` and the response
interfaces `IResponse` / `UserResponse`.  The TypeORM repository is
modelled as an in-memory list of `User` records threaded through the
operations; bcrypt and the JWT service are modelled as abstract
components carrying the properties the source relies on; exceptions are
modelled with `Except`, and a possible database/bcrypt failure inside a
`try` block is injected through an explicit `Option Exn` parameter.
-/

namespace NT

/-- Status field of the response envelope: `'Failure' | 'Success'`
(from the `IResponse` interface). -/
inductive Status where
| Success
| Failure
deriving Repr, DecidableEq

/-- A user record as persisted by the service.  The entity
(`user.entity.ts`) declares `id` (auto-generated primary key),
`firstName`, `lastName`, `email`, `password` (the stored hash) and
`role`.  The `role` column is declared with the `UserRoles` enum type,
but the service stores into it through an unchecked TypeScript cast
(`role as UserRoles`), so the model keeps it as a plain string. -/
structure User where
  id : Nat
  firstName : String
  lastName : String
  email : String
  password : String
  role : String
deriving Repr, DecidableEq

/-- The trimmed response shape produced by `getAllUsers` (the
`UserResponse` interface): id, names, email, role — no password field. -/
structure UserResponse where
  id : Nat
  firstName : String
  lastName : String
  email : String
  role : String
deriving Repr, DecidableEq

/-- The `payload: any | null` field of `IResponse`.  The service only
ever stores `null`, a signed token string (login) or a list of
`UserResponse` (getAllUsers), so the model enumerates those shapes. -/
inductive Payload where
| null
| token (t : String)
| users (us : List UserResponse)
deriving Repr, DecidableEq

/-- The uniform response envelope (`IResponse`): status, message,
numeric code, payload. -/
structure IResponse where
  status : Status
  message : String
  code : Nat
  payload : Payload
deriving Repr, DecidableEq

/-- Modelled from the spec: the `UserRoles` enum lives in
`src/users/enums/enum.ts`, which is not among the sources; §3 of the
spec gives it the members `user` and `admin` with default `user`.  It is
a TypeScript string enum, so the member `UserRoles.User` is the string
value used as the default role. -/
def UserRoles.User : String := "user"

/-- Modelled from the spec: the `admin` member of the `UserRoles`
enum. -/
def UserRoles.Admin : String := "admin"

/-- Registration input (`CreateUserDto`): four required string fields
and an optional role.  An absent or empty string field is falsy in
TypeScript; the model uses `""` for a missing required field and
`Option` for the optional role (`some ""` covering a present-but-empty
value, which is also falsy). -/
structure CreateUserDto where
  firstName : String
  lastName : String
  email : String
  password : String
  role : Option String
deriving Repr, DecidableEq

/-- Login input (`LoginDto`): email and password. -/
structure LoginDto where
  email : String
  password : String
deriving Repr, DecidableEq

/-- An update DTO exists (`UpdateUserDto`) but the unimplemented
`update` ignores it entirely; its fields are irrelevant to every
operation, so it is modelled as an opaque record of optional fields. -/
structure UpdateUserDto where
  firstName : Option String
  lastName : Option String
  email : Option String
  password : Option String
  role : Option String
deriving Repr, DecidableEq

/-- Exceptions thrown inside the service.  `notFound` models NestJS's
`NotFoundException(msg)` and `generic` models `new Error(msg)`; both are
`instanceof Error` in JavaScript, and in both cases the `.message`
property of the thrown object is the string passed to the constructor
(for `NotFoundException('No users found')`, NestJS's `HttpException`
sets `message` to that string). -/
inductive Exn where
| notFound (msg : String)
| generic (msg : String)
deriving Repr, DecidableEq

/-- The `.message` property of a thrown exception. -/
def Exn.message : Exn → String
| notFound m => m
| generic m => m

/-- Model of bcrypt: a one-way salted hash with a verify operation.
`verify_hash` is bcrypt's round-trip guarantee (`bcrypt.compare(p,
bcrypt.hash(p, 10))` is true) and `hash_ne_plain` records that a bcrypt
digest (`$2b$...`) is never the plaintext itself. -/
structure Hasher where
  hash : String → String
  verify : String → String → Bool
  verify_hash : ∀ p, verify p (hash p) = true
  hash_ne_plain : ∀ p, hash p ≠ p

/-- The claims payload that login embeds in the issued token: user id,
names, email, role. -/
structure LoginClaims where
  userId : Nat
  firstName : String
  lastName : String
  email : String
  role : String
deriving Repr, DecidableEq

/-- Model of `JwtService`: `sign` produces a signed token string from a
claims payload; a signed JWT is never the empty string. -/
structure TokenIssuer where
  sign : LoginClaims → String
  sign_ne : ∀ c, sign c ≠ ""

/-- `this.userRepository.findOne({ where: { email } })`: first stored
record with the given email, if any. -/
def findOneByEmail (store : List User) (email : String) : Option User :=
  store.find? (fun u => u.email == email)

/-- `this.userRepository.save(user)`: the store assigns the
auto-increment primary key and appends the record; `save` resolves to
the saved (non-null) entity. -/
def save (store : List User) (u : User) : User × List User :=
  let saved : User := { u with id := store.length + 1 }
  (saved, store ++ [saved])

/-- The role resolution in `create`:
`createUserDto.role || UserRoles.User` — any falsy role (absent or
empty string) defaults to `user`; any other value is taken unchanged. -/
def resolvedRole (dto : CreateUserDto) : String :=
  match dto.role with
  | none => UserRoles.User
  | some r => if r = "" then UserRoles.User else r

/-- The envelope as initialized by each method
(`{ status: 'Failure', message: '', code: 400, payload: null }`) with
its message set: every failure return in the service has this shape. -/
def failureEnvelope (msg : String) : IResponse :=
  { status := Status.Failure, message := msg, code := 400, payload := Payload.null }

/-- The success envelope returned by `create`. -/
def createdEnvelope : IResponse :=
  { status := Status.Success, message := "User created successfully", code := 201
    payload := Payload.null }

/-- The success envelope returned by `login`, carrying the token. -/
def loginSuccessEnvelope (t : String) : IResponse :=
  { status := Status.Success, message := "Login successful", code := 200
    payload := Payload.token t }

/-- The success envelope returned by `getAllUsers`. -/
def usersSuccessEnvelope (us : List UserResponse) : IResponse :=
  { status := Status.Success, message := "Users retrieved successfully", code := 200
    payload := Payload.users us }

/-- The record persisted by a successful `create`: store-assigned id,
the input's fields, the hashed password and the resolved role. -/
def persistedUser (h : Hasher) (store : List User) (dto : CreateUserDto) : User :=
  { id := store.length + 1, firstName := dto.firstName, lastName := dto.lastName
    email := dto.email, password := h.hash dto.password, role := resolvedRole dto }

/-- The `try { ... }` block of `create`: hash the password, build the
entity, save it.  `saveFault` injects an exception thrown by
bcrypt/the repository inside the block (`none` = the happy path).  When
`save` resolves, `savedUser` is a non-null object, so the
`if (savedUser)` branch always upgrades the envelope to Success/201. -/
def createTryBlock (h : Hasher) (saveFault : Option Exn) (store : List User)
    (dto : CreateUserDto) (role : String) : Except Exn (IResponse × List User) :=
  match saveFault with
  | some e => Except.error e
  | none =>
    let hashedPassword := h.hash dto.password
    let user : User :=
      { id := 0, firstName := dto.firstName, lastName := dto.lastName
        email := dto.email, password := hashedPassword, role := role }
    let res := save store user
    Except.ok (createdEnvelope, res.2)

/-- `UsersService.create`: validate the four required fields, default
the role, reject a duplicate email, then hash and save inside a
`try` whose `catch` logs and rethrows `new Error('Error creating
user')`.  The result pairs the returned envelope with the resulting
store; a thrown error is `Except.error`. -/
def UsersService.create (h : Hasher) (saveFault : Option Exn) (store : List User)
    (dto : CreateUserDto) : Except Exn (IResponse × List User) :=
  if dto.firstName = "" ∨ dto.lastName = "" ∨ dto.email = "" ∨ dto.password = "" then
    Except.ok (failureEnvelope "All fields are required", store)
  else
    match findOneByEmail store dto.email with
    | some _ => Except.ok (failureEnvelope "User with this email already exists", store)
    | none =>
      match createTryBlock h saveFault store dto (resolvedRole dto) with
      | Except.ok out => Except.ok out
      | Except.error _ => Except.error (Exn.generic "Error creating user")

/-- The `try { ... }` block of `login`: look the user up by email,
compare the password with the stored hash, and on success sign the
claims payload.  `fault` injects an exception thrown by the
repository/bcrypt inside the block. -/
def loginTryBlock (h : Hasher) (j : TokenIssuer) (fault : Option Exn)
    (store : List User) (dto : LoginDto) : Except Exn IResponse :=
  match fault with
  | some e => Except.error e
  | none =>
    match findOneByEmail store dto.email with
    | none => Except.ok (failureEnvelope "User not found")
    | some user =>
      if h.verify dto.password user.password = false then
        Except.ok (failureEnvelope "Invalid password")
      else
        let payload : LoginClaims :=
          { userId := user.id, firstName := user.firstName, lastName := user.lastName
            email := user.email, role := user.role }
        let accessToken := j.sign payload
        Except.ok (loginSuccessEnvelope accessToken)

/-- `UsersService.login`: require both fields, then run the try block;
the `catch` folds any thrown exception into the envelope's message
(every exception the service can throw is an `Error` instance, so the
`error instanceof Error` branch applies).  The TypeScript method always
returns the envelope — it never rethrows — which the model reflects by
returning `IResponse` rather than `Except Exn IResponse`. -/
def UsersService.login (h : Hasher) (j : TokenIssuer) (fault : Option Exn)
    (store : List User) (dto : LoginDto) : IResponse :=
  if dto.email = "" ∨ dto.password = "" then
    failureEnvelope "Email and password are required"
  else
    match loginTryBlock h j fault store dto with
    | Except.ok r => r
    | Except.error e => failureEnvelope e.message

/-- The trimmed shape pushed for each record in `getAllUsers`. -/
def trimUser (u : User) : UserResponse :=
  { id := u.id, firstName := u.firstName, lastName := u.lastName
    email := u.email, role := u.role }

/-- The `try { ... }` block of `getAllUsers`: fetch all records; a
non-empty list is mapped to the trimmed shapes (the source's push loop,
in store order), an empty one raises
`NotFoundException('No users found')`.  `fault` injects an exception
thrown by the repository. -/
def getAllUsersTryBlock (fault : Option Exn) (store : List User) : Except Exn IResponse :=
  match fault with
  | some e => Except.error e
  | none =>
    let users := store
    if users.length > 0 then
      Except.ok (usersSuccessEnvelope (users.map trimUser))
    else
      Except.error (Exn.notFound "No users found")

/-- `UsersService.getAllUsers`: run the try block; the `catch` folds any
thrown exception — including the internally raised
`NotFoundException` — into the envelope's message, and the method
returns the envelope. -/
def UsersService.getAllUsers (fault : Option Exn) (store : List User) : IResponse :=
  match getAllUsersTryBlock fault store with
  | Except.ok r => r
  | Except.error e => failureEnvelope e.message

/-- `UsersService.findOne`: unimplemented placeholder.  The method never
touches the repository; the store is threaded through unchanged to make
that explicit. -/
def UsersService.findOne (id : Int) (store : List User) : String × List User :=
  ("This action returns a #" ++ toString id ++ " user", store)

/-- `UsersService.update`: unimplemented placeholder; the DTO is
ignored and the store untouched. -/
def UsersService.update (id : Int) (_dto : UpdateUserDto) (store : List User) :
    String × List User :=
  ("This action updates a #" ++ toString id ++ " user", store)

/-- `UsersService.remove`: unimplemented placeholder; the store is
untouched. -/
def UsersService.remove (id : Int) (store : List User) : String × List User :=
  ("This action removes a #" ++ toString id ++ " user", store)

/-- A concrete executable hasher satisfying the bcrypt laws, used to
evaluate the theorems on concrete inputs. -/
def bcryptModel : Hasher where
  hash p := "$2b$10$" ++ p
  verify p stored := decide (stored = "$2b$10$" ++ p)
  verify_hash := by
    intro p
    simp
  hash_ne_plain := by
    intro p hcontra
    have hlen := congrArg String.length hcontra
    simp [String.length_append] at hlen
    exact (by decide : ("$2b$10$".length = 0) → False) hlen

/-- A concrete executable token issuer, used to evaluate the theorems on
concrete inputs. -/
def jwtModel : TokenIssuer where
  sign c := "signed." ++ c.email
  sign_ne := by
    intro c hcontra
    have hlen := congrArg String.length hcontra
    simp [String.length_append] at hlen
    exact (by decide : ("signed.".length = 0) → False) hlen.1

/-- The running example user of the spec (§8), as stored after
registering first="Jane", last="Doe", email="jane@x.com",
password="secret123" against `bcryptModel`. -/
def janeUser : User :=
  { id := 1, firstName := "Jane", lastName := "Doe", email := "jane@x.com"
    password := bcryptModel.hash "secret123", role := "user" }

/-- A one-user store holding `janeUser`. -/
def demoStore : List User := [janeUser]

/-- The spec's example registration input. -/
def janeDto : CreateUserDto :=
  { firstName := "Jane", lastName := "Doe", email := "jane@x.com"
    password := "secret123", role := none }

/-- The repository lookup misses exactly when no stored record has the
email. -/
theorem findOneByEmail_eq_none_of_fresh (store : List User) (e : String)
    (hfresh : ∀ u ∈ store, u.email ≠ e) : findOneByEmail store e = none := by
  unfold findOneByEmail
  rw [List.find?_eq_none]
  intro u hu
  simpa using hfresh u hu

/-- The repository lookup hits when some stored record has the email. -/
theorem findOneByEmail_isSome_of_mem (store : List User) (e : String)
    (hmem : ∃ u ∈ store, u.email = e) : ∃ v, findOneByEmail store e = some v := by
  unfold findOneByEmail
  obtain ⟨u, hu, he⟩ := hmem
  have : (store.find? (fun v => v.email == e)).isSome = true := by
    rw [List.find?_isSome]
    exact ⟨u, hu, by simpa using he⟩
  exact Option.isSome_iff_exists.mp this

/-- On the happy path (all fields present, email fresh, no injected
fault) `create` returns Success/201 and appends exactly the persisted
record. -/
theorem create_fresh_ok (h : Hasher) (store : List User) (dto : CreateUserDto)
    (hfields : ¬(dto.firstName = "" ∨ dto.lastName = "" ∨ dto.email = "" ∨ dto.password = ""))
    (hfresh : ∀ u ∈ store, u.email ≠ dto.email) :
    UsersService.create h none store dto =
      Except.ok (createdEnvelope, store ++ [persistedUser h store dto]) := by
  unfold UsersService.create
  rw [if_neg hfields, findOneByEmail_eq_none_of_fresh store dto.email hfresh]
  simp [createTryBlock, save, persistedUser]

/-- C1: creating a valid new user succeeds with Success/201 and persists
a record whose stored password is the hash of the input password — it
verifies against the input but is not literally equal to it. -/
theorem create_valid_new_user (h : Hasher) (store : List User) (dto : CreateUserDto)
    (hfields : ¬(dto.firstName = "" ∨ dto.lastName = "" ∨ dto.email = "" ∨ dto.password = ""))
    (hfresh : ∀ u ∈ store, u.email ≠ dto.email) :
    UsersService.create h none store dto =
      Except.ok (createdEnvelope, store ++ [persistedUser h store dto]) ∧
    (persistedUser h store dto).password = h.hash dto.password ∧
    h.verify dto.password (persistedUser h store dto).password = true ∧
    (persistedUser h store dto).password ≠ dto.password := by
  refine ⟨create_fresh_ok h store dto hfields hfresh, rfl, ?_, ?_⟩
  · simpa [persistedUser] using h.verify_hash dto.password
  · simpa [persistedUser] using h.hash_ne_plain dto.password

/-- C1 witness: the spec's example registration on an empty store. -/
theorem create_valid_new_user_witness :
    UsersService.create bcryptModel none [] janeDto =
      Except.ok (createdEnvelope, [janeUser]) ∧
    janeUser.password = bcryptModel.hash "secret123" ∧
    bcryptModel.verify "secret123" janeUser.password = true ∧
    janeUser.password ≠ "secret123" := by
  have hmain := create_valid_new_user bcryptModel [] janeDto (by decide)
    (by intro u hu; cases hu)
  simpa [janeDto, janeUser, persistedUser, resolvedRole, UserRoles.User] using hmain

/-- C2: the login case analysis — missing credentials, unknown email,
wrong password, and the successful case with a non-empty signed token
payload. -/
theorem login_case_analysis (h : Hasher) (j : TokenIssuer) (store : List User)
    (dto : LoginDto) :
    ((dto.email = "" ∨ dto.password = "") →
      UsersService.login h j none store dto =
        failureEnvelope "Email and password are required") ∧
    (¬(dto.email = "" ∨ dto.password = "") → (∀ u ∈ store, u.email ≠ dto.email) →
      UsersService.login h j none store dto = failureEnvelope "User not found") ∧
    (∀ u, ¬(dto.email = "" ∨ dto.password = "") →
      findOneByEmail store dto.email = some u →
      h.verify dto.password u.password = false →
      UsersService.login h j none store dto = failureEnvelope "Invalid password") ∧
    (∀ u, ¬(dto.email = "" ∨ dto.password = "") →
      findOneByEmail store dto.email = some u →
      h.verify dto.password u.password = true →
      UsersService.login h j none store dto =
        loginSuccessEnvelope (j.sign ⟨u.id, u.firstName, u.lastName, u.email, u.role⟩) ∧
      j.sign ⟨u.id, u.firstName, u.lastName, u.email, u.role⟩ ≠ "") := by
  refine ⟨?_, ?_, ?_, ?_⟩
  · intro hempty
    unfold UsersService.login
    rw [if_pos hempty]
  · intro hne hfresh
    unfold UsersService.login
    rw [if_neg hne]
    simp [loginTryBlock, findOneByEmail_eq_none_of_fresh store dto.email hfresh]
  · intro u hne hfind hverify
    unfold UsersService.login
    rw [if_neg hne]
    simp [loginTryBlock, hfind, hverify]
  · intro u hne hfind hverify
    refine ⟨?_, j.sign_ne _⟩
    unfold UsersService.login
    rw [if_neg hne]
    simp [loginTryBlock, hfind, hverify]

/-- C2 witness: the four login outcomes on the one-user demo store. -/
theorem login_case_analysis_witness :
    UsersService.login bcryptModel jwtModel none demoStore ⟨"", "secret123"⟩ =
      failureEnvelope "Email and password are required" ∧
    UsersService.login bcryptModel jwtModel none demoStore ⟨"bob@x.com", "pw"⟩ =
      failureEnvelope "User not found" ∧
    UsersService.login bcryptModel jwtModel none demoStore ⟨"jane@x.com", "wrong"⟩ =
      failureEnvelope "Invalid password" ∧
    UsersService.login bcryptModel jwtModel none demoStore ⟨"jane@x.com", "secret123"⟩ =
      loginSuccessEnvelope (jwtModel.sign ⟨1, "Jane", "Doe", "jane@x.com", "user"⟩) ∧
    jwtModel.sign ⟨1, "Jane", "Doe", "jane@x.com", "user"⟩ ≠ "" := by
  have h4 := (login_case_analysis bcryptModel jwtModel demoStore
    ⟨"jane@x.com", "secret123"⟩).2.2.2 janeUser (by decide) rfl (by decide)
  refine ⟨?_, ?_, ?_, ?_, ?_⟩
  · exact (login_case_analysis bcryptModel jwtModel demoStore
      ⟨"", "secret123"⟩).1 (Or.inl rfl)
  · exact (login_case_analysis bcryptModel jwtModel demoStore
      ⟨"bob@x.com", "pw"⟩).2.1 (by decide)
      (by intro u hu; simp [demoStore] at hu; subst hu; decide)
  · exact (login_case_analysis bcryptModel jwtModel demoStore
      ⟨"jane@x.com", "wrong"⟩).2.2.1 janeUser (by decide) rfl (by decide)
  · simpa [janeUser] using h4.1
  · simpa [janeUser] using h4.2

/-- C3: registration with any combination of empty required fields
returns Failure/400 "All fields are required" without raising and
without touching the store. -/
theorem create_missing_fields (h : Hasher) (saveFault : Option Exn) (store : List User)
    (dto : CreateUserDto)
    (hempty : dto.firstName = "" ∨ dto.lastName = "" ∨ dto.email = "" ∨ dto.password = "") :
    UsersService.create h saveFault store dto =
      Except.ok (failureEnvelope "All fields are required", store) := by
  unfold UsersService.create
  rw [if_pos hempty]

/-- C3 witness: registering with an empty first name. -/
theorem create_missing_fields_witness :
    UsersService.create bcryptModel none demoStore
      { firstName := "", lastName := "Doe", email := "jane@x.com"
        password := "secret123", role := none } =
      Except.ok (failureEnvelope "All fields are required", demoStore) :=
  create_missing_fields bcryptModel none demoStore _ (Or.inl rfl)

/-- C4: registering an email that already has a record returns
Failure/400 "User with this email already exists" and leaves the store
unchanged. -/
theorem create_duplicate_email (h : Hasher) (saveFault : Option Exn) (store : List User)
    (dto : CreateUserDto)
    (hfields : ¬(dto.firstName = "" ∨ dto.lastName = "" ∨ dto.email = "" ∨ dto.password = ""))
    (hdup : ∃ u ∈ store, u.email = dto.email) :
    UsersService.create h saveFault store dto =
      Except.ok (failureEnvelope "User with this email already exists", store) := by
  unfold UsersService.create
  rw [if_neg hfields]
  obtain ⟨v, hv⟩ := findOneByEmail_isSome_of_mem store dto.email hdup
  simp [hv]

/-- C4 witness: re-registering Jane against the demo store. -/
theorem create_duplicate_email_witness :
    UsersService.create bcryptModel none demoStore janeDto =
      Except.ok (failureEnvelope "User with this email already exists", demoStore) :=
  create_duplicate_email bcryptModel none demoStore janeDto (by decide)
    ⟨janeUser, by simp [demoStore], rfl⟩

/-- C5 counterexample: on an empty store `getAllUsers` returns a
Failure envelope whose message is exactly the specific not-found text
"No users found" — the catch handler copies `error.message` from the
internally raised `NotFoundException('No users found')` into the
envelope, so the message is not a generic one and the not-found detail
is not discarded. -/
theorem getAllUsers_empty_counterexample :
    (UsersService.getAllUsers none ([] : List User)).message = "No users found" ∧
    (UsersService.getAllUsers none ([] : List User)).status = Status.Failure := by
  constructor <;> rfl

/-- C5 amended: on an empty store `getAllUsers` raises
`NotFoundException('No users found')` internally, and the surrounding
handler converts it into a Failure envelope whose message is that
exception's own message "No users found" (the specific not-found detail
is surfaced, not discarded). -/
theorem getAllUsers_empty_amended :
    getAllUsersTryBlock none ([] : List User) =
      Except.error (Exn.notFound "No users found") ∧
    UsersService.getAllUsers none ([] : List User) =
      failureEnvelope (Exn.notFound "No users found").message := by
  constructor <;> rfl

/-- C6: on a non-empty store `getAllUsers` returns Success/200 whose
payload maps each stored record, in store order, to the trimmed
`UserResponse` shape (id, names, email, role — no password field), with
exactly as many entries as records. -/
theorem getAllUsers_nonempty (store : List User) (hne : store ≠ []) :
    UsersService.getAllUsers none store = usersSuccessEnvelope (store.map trimUser) ∧
    (store.map trimUser).length = store.length ∧
    ∀ u ∈ store, trimUser u =
      { id := u.id, firstName := u.firstName, lastName := u.lastName
        email := u.email, role := u.role } := by
  refine ⟨?_, by simp, fun u _ => rfl⟩
  have hlen : store.length > 0 := List.length_pos.mpr hne
  unfold UsersService.getAllUsers getAllUsersTryBlock
  simp [hlen]

/-- C6 witness: listing the one-user demo store. -/
theorem getAllUsers_nonempty_witness :
    UsersService.getAllUsers none demoStore =
      usersSuccessEnvelope (demoStore.map trimUser) ∧
    (demoStore.map trimUser).length = demoStore.length ∧
    demoStore.map trimUser =
      [{ id := 1, firstName := "Jane", lastName := "Doe", email := "jane@x.com"
         role := "user" }] := by
  have h := getAllUsers_nonempty demoStore (by simp [demoStore])
  exact ⟨h.1, h.2.1, by simp [demoStore, janeUser, trimUser]⟩

/-- C7: divergent error propagation — a failure inside `create`'s try
block propagates as the thrown generic `Error('Error creating user')`,
while any exception inside `login`'s try block is caught and folded into
a returned Failure envelope carrying the exception's message (`login`
returns an envelope for every input, never a thrown error, as its
`IResponse` return type records). -/
theorem error_propagation_policy (h : Hasher) (j : TokenIssuer) (store : List User)
    (dto : CreateUserDto) (ldto : LoginDto) (e : Exn)
    (hfields : ¬(dto.firstName = "" ∨ dto.lastName = "" ∨ dto.email = "" ∨ dto.password = ""))
    (hfresh : ∀ u ∈ store, u.email ≠ dto.email)
    (hcreds : ¬(ldto.email = "" ∨ ldto.password = "")) :
    UsersService.create h (some e) store dto =
      Except.error (Exn.generic "Error creating user") ∧
    UsersService.login h j (some e) store ldto = failureEnvelope e.message := by
  constructor
  · unfold UsersService.create
    rw [if_neg hfields, findOneByEmail_eq_none_of_fresh store dto.email hfresh]
    simp [createTryBlock]
  · unfold UsersService.login
    rw [if_neg hcreds]
    simp [loginTryBlock]

/-- C7 witness: a concrete injected repository failure during
registration and login. -/
theorem error_propagation_policy_witness :
    UsersService.create bcryptModel (some (Exn.generic "connection lost")) [] janeDto =
      Except.error (Exn.generic "Error creating user") ∧
    UsersService.login bcryptModel jwtModel (some (Exn.generic "connection lost"))
      demoStore ⟨"jane@x.com", "secret123"⟩ = failureEnvelope "connection lost" := by
  have h := error_propagation_policy bcryptModel jwtModel [] janeDto
    ⟨"jane@x.com", "secret123"⟩ (Exn.generic "connection lost") (by decide)
    (by intro u hu; cases hu) (by decide)
  have h2 := error_propagation_policy bcryptModel jwtModel demoStore
    { firstName := "Ann", lastName := "Lee", email := "ann@x.com"
      password := "pw1", role := none }
    ⟨"jane@x.com", "secret123"⟩ (Exn.generic "connection lost") (by decide)
    (by decide) (by decide)
  exact ⟨h.1, by simpa [Exn.message] using h2.2⟩

/-- C8: `findOne`, `update` and `remove` only build the placeholder
string naming the action and the id; the store is untouched. -/
theorem placeholder_crud (id : Int) (dto : UpdateUserDto) (store : List User) :
    UsersService.findOne id store =
      ("This action returns a #" ++ toString id ++ " user", store) ∧
    UsersService.update id dto store =
      ("This action updates a #" ++ toString id ++ " user", store) ∧
    UsersService.remove id store =
      ("This action removes a #" ++ toString id ++ " user", store) ∧
    (UsersService.findOne id store).2 = store ∧
    (UsersService.update id dto store).2 = store ∧
    (UsersService.remove id store).2 = store :=
  ⟨rfl, rfl, rfl, rfl, rfl, rfl⟩

/-- The implicit envelope discipline: Success goes with 200/201, and
every Failure envelope carries code 400 and a null payload. -/
def envelopeInvariant (r : IResponse) : Prop :=
  (r.status = Status.Success ↔ (r.code = 200 ∨ r.code = 201)) ∧
  (r.status = Status.Failure → r.code = 400 ∧ r.payload = Payload.null)

/-- Every failure envelope satisfies the discipline. -/
theorem envelopeInvariant_failure (m : String) :
    envelopeInvariant (failureEnvelope m) := by
  refine ⟨⟨fun hc => ?_, fun hc => ?_⟩, fun _ => ⟨rfl, rfl⟩⟩
  · simp [failureEnvelope] at hc
  · rcases hc with hc | hc <;> simp [failureEnvelope] at hc

/-- The create success envelope satisfies the discipline. -/
theorem envelopeInvariant_created : envelopeInvariant createdEnvelope := by
  refine ⟨⟨fun _ => Or.inr rfl, fun _ => rfl⟩, fun hc => ?_⟩
  simp [createdEnvelope] at hc

/-- The login success envelope satisfies the discipline. -/
theorem envelopeInvariant_loginSuccess (t : String) :
    envelopeInvariant (loginSuccessEnvelope t) := by
  refine ⟨⟨fun _ => Or.inl rfl, fun _ => rfl⟩, fun hc => ?_⟩
  simp [loginSuccessEnvelope] at hc

/-- The list-users success envelope satisfies the discipline. -/
theorem envelopeInvariant_usersSuccess (us : List UserResponse) :
    envelopeInvariant (usersSuccessEnvelope us) := by
  refine ⟨⟨fun _ => Or.inl rfl, fun _ => rfl⟩, fun hc => ?_⟩
  simp [usersSuccessEnvelope] at hc

/-- When `create`'s try block resolves, its envelope is the Success/201
one. -/
theorem createTryBlock_ok_shape (h : Hasher) (fc : Option Exn) (store : List User)
    (dto : CreateUserDto) (role : String) (out : IResponse × List User)
    (hok : createTryBlock h fc store dto role = Except.ok out) :
    out.1 = createdEnvelope := by
  unfold createTryBlock at hok
  cases fc with
  | some e => exact Except.noConfusion hok
  | none =>
    injection hok with h2
    rw [← h2]

/-- Every envelope `create` returns is one of its three literal
envelopes. -/
theorem create_ok_shape (h : Hasher) (fc : Option Exn) (store : List User)
    (dto : CreateUserDto) (r : IResponse) (s : List User)
    (hok : UsersService.create h fc store dto = Except.ok (r, s)) :
    r = failureEnvelope "All fields are required" ∨
    r = failureEnvelope "User with this email already exists" ∨
    r = createdEnvelope := by
  unfold UsersService.create at hok
  split at hok
  · injection hok with h2
    exact Or.inl (congrArg Prod.fst h2.symm)
  · split at hok
    · injection hok with h2
      exact Or.inr (Or.inl (congrArg Prod.fst h2.symm))
    · split at hok
      next out hout =>
        injection hok with h2
        have h3 := createTryBlock_ok_shape h fc store dto _ out hout
        rw [h2] at h3
        exact Or.inr (Or.inr h3)
      next e hout => exact Except.noConfusion hok

/-- When `login`'s try block resolves, its envelope is a failure
envelope or the login success envelope. -/
theorem loginTryBlock_ok_shape (h : Hasher) (j : TokenIssuer) (fl : Option Exn)
    (store : List User) (ldto : LoginDto) (r : IResponse)
    (hok : loginTryBlock h j fl store ldto = Except.ok r) :
    (∃ m, r = failureEnvelope m) ∨ (∃ t, r = loginSuccessEnvelope t) := by
  unfold loginTryBlock at hok
  cases fl with
  | some e => exact Except.noConfusion hok
  | none =>
    dsimp only at hok
    cases hfind : findOneByEmail store ldto.email with
    | none =>
      rw [hfind] at hok
      dsimp only at hok
      injection hok with h2
      exact Or.inl ⟨_, h2.symm⟩
    | some u =>
      rw [hfind] at hok
      dsimp only at hok
      by_cases hv : h.verify ldto.password u.password = false
      · rw [if_pos hv] at hok
        injection hok with h2
        exact Or.inl ⟨_, h2.symm⟩
      · rw [if_neg hv] at hok
        injection hok with h2
        exact Or.inr ⟨_, h2.symm⟩

/-- Every envelope `login` returns is a failure envelope or the login
success envelope. -/
theorem login_shape (h : Hasher) (j : TokenIssuer) (fl : Option Exn)
    (store : List User) (ldto : LoginDto) :
    (∃ m, UsersService.login h j fl store ldto = failureEnvelope m) ∨
    (∃ t, UsersService.login h j fl store ldto = loginSuccessEnvelope t) := by
  unfold UsersService.login
  split
  · exact Or.inl ⟨_, rfl⟩
  · cases hlt : loginTryBlock h j fl store ldto with
    | ok r =>
      rcases loginTryBlock_ok_shape h j fl store ldto r hlt with ⟨m, hm⟩ | ⟨t, ht⟩
      · exact Or.inl ⟨m, hm⟩
      · exact Or.inr ⟨t, ht⟩
    | error e => exact Or.inl ⟨_, rfl⟩

/-- Every envelope `getAllUsers` returns is a failure envelope or the
list success envelope. -/
theorem getAllUsers_shape (fg : Option Exn) (store : List User) :
    (∃ m, UsersService.getAllUsers fg store = failureEnvelope m) ∨
    (∃ us, UsersService.getAllUsers fg store = usersSuccessEnvelope us) := by
  unfold UsersService.getAllUsers getAllUsersTryBlock
  cases fg with
  | some e => exact Or.inl ⟨_, rfl⟩
  | none =>
    by_cases hlen : store.length > 0
    · rw [if_pos hlen]
      exact Or.inr ⟨_, rfl⟩
    · rw [if_neg hlen]
      exact Or.inl ⟨_, rfl⟩

/-- C9: the envelope discipline holds for every envelope returned by
`create`, `login` and `getAllUsers`, over all inputs, stores and
injected faults. -/
theorem envelope_invariant_all (h : Hasher) (j : TokenIssuer)
    (fc fl fg : Option Exn) (store : List User) (dto : CreateUserDto)
    (ldto : LoginDto) :
    (∀ r s, UsersService.create h fc store dto = Except.ok (r, s) →
      envelopeInvariant r) ∧
    envelopeInvariant (UsersService.login h j fl store ldto) ∧
    envelopeInvariant (UsersService.getAllUsers fg store) := by
  refine ⟨?_, ?_, ?_⟩
  · intro r s hok
    rcases create_ok_shape h fc store dto r s hok with h1 | h1 | h1 <;> rw [h1]
    · exact envelopeInvariant_failure _
    · exact envelopeInvariant_failure _
    · exact envelopeInvariant_created
  · rcases login_shape h j fl store ldto with ⟨m, hm⟩ | ⟨t, ht⟩
    · rw [hm]; exact envelopeInvariant_failure m
    · rw [ht]; exact envelopeInvariant_loginSuccess t
  · rcases getAllUsers_shape fg store with ⟨m, hm⟩ | ⟨us, hus⟩
    · rw [hm]; exact envelopeInvariant_failure m
    · rw [hus]; exact envelopeInvariant_usersSuccess us

/-- C9 witness: the discipline at concrete calls — a duplicate-email
registration, a successful login and a successful listing. -/
theorem envelope_invariant_all_witness :
    envelopeInvariant (failureEnvelope "User with this email already exists") ∧
    envelopeInvariant (UsersService.login bcryptModel jwtModel none demoStore
      ⟨"jane@x.com", "secret123"⟩) ∧
    envelopeInvariant (UsersService.getAllUsers none demoStore) := by
  have h := envelope_invariant_all bcryptModel jwtModel none none none demoStore
    janeDto ⟨"jane@x.com", "secret123"⟩
  exact ⟨h.1 (failureEnvelope "User with this email already exists") demoStore rfl,
    h.2.1, h.2.2⟩

/-- C10: `create` never validates the supplied role against the
`UserRoles` enumeration — any non-empty role string is persisted
unchanged, and only a falsy (absent or empty) role falls back to the
default `user`. -/
theorem create_role_unchecked (h : Hasher) (store : List User) (dto : CreateUserDto)
    (hfields : ¬(dto.firstName = "" ∨ dto.lastName = "" ∨ dto.email = "" ∨ dto.password = ""))
    (hfresh : ∀ u ∈ store, u.email ≠ dto.email) :
    (∀ r, dto.role = some r → r ≠ "" → (persistedUser h store dto).role = r) ∧
    ((dto.role = none ∨ dto.role = some "") →
      (persistedUser h store dto).role = UserRoles.User) ∧
    UsersService.create h none store dto =
      Except.ok (createdEnvelope, store ++ [persistedUser h store dto]) := by
  refine ⟨?_, ?_, create_fresh_ok h store dto hfields hfresh⟩
  · intro r hr hne
    simp [persistedUser, resolvedRole, hr, hne]
  · intro hr
    rcases hr with hr | hr <;> simp [persistedUser, resolvedRole, hr]

/-- C10 witness: a role value outside the enumeration ("superadmin") is
persisted unchanged. -/
theorem create_role_unchecked_witness :
    (persistedUser bcryptModel []
      { firstName := "Ann", lastName := "Lee", email := "ann@x.com"
        password := "pw1", role := some "superadmin" }).role = "superadmin" ∧
    "superadmin" ≠ UserRoles.User ∧
    "superadmin" ≠ UserRoles.Admin ∧
    UsersService.create bcryptModel none []
      { firstName := "Ann", lastName := "Lee", email := "ann@x.com"
        password := "pw1", role := some "superadmin" } =
      Except.ok (createdEnvelope,
        [persistedUser bcryptModel []
          { firstName := "Ann", lastName := "Lee", email := "ann@x.com"
            password := "pw1", role := some "superadmin" }]) := by
  have h := create_role_unchecked bcryptModel []
    { firstName := "Ann", lastName := "Lee", email := "ann@x.com"
      password := "pw1", role := some "superadmin" }
    (by decide) (by intro u hu; cases hu)
  exact ⟨h.1 "superadmin" rfl (by decide), by decide, by decide, by simpa using h.2.2⟩

end NT
